import Mathlib

/-!
Shallow embedding of the `Recoverable` mixin from `src/lib/morphs/recoverable.js`
(the irina account-recovery module).

Dates are epoch milliseconds (`Int`).  JavaScript promise chains are embedded as
straight-line Lean functions that return a record of: the promise outcome
(resolved value or rejected error), the sequence of invocations of the optional
error-first `done` callback, whether the messaging collaborator `send` was
invoked, and the entity state passed to `save` (if `save` was called).
A JavaScript `throw` inside a `.then` stage skips the remaining stages and is
delivered to the final `.catch`; reading a property of `null`/`undefined`
throws a `TypeError`.

The module's own helpers that live outside `src/` (`lib/utils`: `addDays`,
`isAfter`, `tokenizer`) and the external collaborators (`randomatic`,
`encryptPassword`, JavaScript `RegExp`) are modelled from the spec; each such
definition says so in its doc comment.
-/

namespace Recoverable

/-- A JavaScript error value: either `new Error(message)` or the `TypeError`
raised when a property of `null`/`undefined` is read. -/
inductive JsError where
  | err (message : String)
  | typeError
deriving DecidableEq

/-- The recoverable entity: the user record with the four schema fields the
mixin adds (`schema.add` in `recoverable.js`), plus the `email` and `password`
fields of the underlying user model the mixin reads and writes. -/
structure Entity where
  email : String
  password : String
  recoveryToken : Option String := none
  recoveryTokenExpiryAt : Option Int := none
  recoverySentAt : Option Int := none
  recoveredAt : Option Int := none
deriving DecidableEq

/-- One invocation of the optional error-first `done` callback:
`done(error)` or `done(null, recoverable)`. -/
inductive DoneCall where
  | fail (e : JsError)
  | ok (e : Entity)
deriving DecidableEq

/-- The settled state of the returned promise: resolved (possibly with
`undefined`, i.e. `none`) or rejected with an error. -/
inductive Outcome where
  | resolved (v : Option Entity)
  | rejected (e : JsError)
deriving DecidableEq

/-- The recognized configuration of the mixin, `options.recoverable`:
`tokenLifeSpan` (days) and `tokenType` (`some "passcode"` selects passcode
mode; anything else is the default encrypted-token mode). -/
structure RecoverableOptions where
  tokenLifeSpan : Int
  tokenType : Option String
deriving DecidableEq

namespace Utils

/-- Modelled from the spec: `Utils.addDays(n)` from `lib/utils` (not under
`src/`) returns the timestamp `n` days after the current instant; with the
current instant threaded explicitly, `now + n` days in epoch milliseconds. -/
def addDays (now : Int) (n : Int) : Int :=
  now + n * 86400000

/-- Modelled from the spec: `Utils.isAfter(a, b)` from `lib/utils` (not under
`src/`).  Per spec §4.1 step 2 the expiry check computed in `recover` as
`!Utils.isAfter(new Date(), expiry)` succeeds exactly when
`now <= recoveryTokenExpiryAt`, so `isAfter a b` holds exactly when `b` is at
or after `a`; a `null` date (`none`) compares false. -/
def isAfter (a : Int) (b : Option Int) : Bool :=
  match b with
  | none => false
  | some b => decide (a ≤ b)

/-- Modelled from the spec: the tokenizer primitive from `lib/utils` (not
under `src/`), constructed from a seed string and exposing
`encrypt(subject) → token` and `match(token, subject) → bool`, keyed
deterministically by the seed (spec §6, §8). -/
structure Tokenizer where
  seed : String
deriving DecidableEq

/-- Modelled from the spec: `Utils.tokenizer(seed)` builds the keyed
tokenizer. -/
def tokenizer (seed : String) : Tokenizer :=
  ⟨seed⟩

/-- Modelled from the spec: `tokenizer.encrypt(subject)` produces a token
deterministically bound to the seed and the subject. -/
def Tokenizer.encrypt (t : Tokenizer) (subject : String) : String :=
  t.seed ++ ":" ++ subject

/-- Modelled from the spec: `tokenizer.match(token, subject)` verifies that
`token` is the one this tokenizer's seed produces for `subject` (spec §8
round-trip property). -/
def Tokenizer.check (t : Tokenizer) (token subject : String) : Bool :=
  token == t.encrypt subject

end Utils

/-- Modelled from the spec: `randomize('0', 6)` from the external `randomatic`
library returns a random 6-character numeric string, independent of every
entity field; the randomness source is an explicit seed. -/
def randomize0 (seed : Nat) : String :=
  String.mk ((List.range 6).map fun i => Nat.digitChar (seed / 10 ^ i % 10))

/-- Modelled from the spec: the external credential-hashing collaborator;
`entity.encryptPassword()` transforms the plaintext `password` field into a
stored hash in place (spec §6). -/
def hashPassword (plain : String) : String :=
  "hashed:" ++ plain

/-- Modelled from the spec: `entity.encryptPassword()` (spec §6), hashing the
`password` field in place and resolving with the entity. -/
def encryptPassword (e : Entity) : Entity :=
  { e with password := hashPassword e.password }

/-- Does pattern character `p` match subject character `c` under the
case-insensitive flag?  `.` is the wildcard. -/
def charMatchI (p c : Char) : Bool :=
  p == '.' || p.toLower == c.toLower

/-- Does the pattern match a prefix of the subject? -/
def matchHere : List Char → List Char → Bool
  | [], _ => true
  | _ :: _, [] => false
  | p :: ps, c :: cs => charMatchI p c && matchHere ps cs

/-- Unanchored search: does the pattern match at some position of the
subject? -/
def searchI : List Char → List Char → Bool
  | p, [] => matchHere p []
  | p, c :: cs => matchHere p (c :: cs) || searchI p cs

/-- Modelled from the spec: JavaScript `new RegExp(pattern, 'i').test(subject)`
(spec §4.1 step 1: case-insensitive, unanchored substring/pattern matching),
restricted to patterns built from literal characters and the `.` wildcard. -/
def regexTestI (pattern subject : String) : Bool :=
  searchI pattern.toList subject.toList

/-- Embedding of `getRecoveryToken(payload, tokenType)` (`recoverable.js` lines 335–347):
passcode mode returns `randomize('0', 6)`; the default mode derives a
tokenizer keyed by the expiry's epoch-milliseconds string and encrypts the
email. -/
def getRecoveryToken (recoveryTokenExpiryAt : Int) (email : String)
    (tokenType : Option String) (rand : Nat) : String :=
  if tokenType == some "passcode" then
    randomize0 rand
  else
    (Utils.tokenizer (toString recoveryTokenExpiryAt)).encrypt email

/-- Result of `generateRecoveryToken`. -/
structure GenOut where
  outcome : Outcome
  doneCalls : List DoneCall
  entity : Entity
  saved : Option Entity
deriving DecidableEq

/-- Embedding of `schema.methods.generateRecoveryToken` (`recoverable.js` lines 61–84):
computes the expiry via `Utils.addDays(tokenLifeSpan)`, sets `recoveryToken`
via `getRecoveryToken`, sets `recoveryTokenExpiryAt`, clears `recoveredAt`,
invokes `done(null, recoverable)` when a callback was given, and resolves with
the mutated entity.  It never calls `save` and never rejects. -/
def generateRecoveryToken (opts : RecoverableOptions) (now : Int) (rand : Nat)
    (e : Entity) (hasDone : Bool) : GenOut :=
  let recoveryTokenExpiryAt := Utils.addDays now opts.tokenLifeSpan
  let token := getRecoveryToken recoveryTokenExpiryAt e.email opts.tokenType rand
  let e1 := { e with
    recoveryToken := some token
    recoveryTokenExpiryAt := some recoveryTokenExpiryAt
    recoveredAt := none }
  { outcome := .resolved (some e1)
    doneCalls := if hasDone then [.ok e1] else []
    entity := e1
    saved := none }

/-- Result of `sendRecovery`. -/
structure SendOut where
  outcome : Outcome
  doneCalls : List DoneCall
  sendCalled : Bool
  saved : Option Entity
  entity : Entity
deriving DecidableEq

/-- Embedding of `schema.methods.sendRecovery` (`recoverable.js` lines 105–148): if
`recoveredAt` is already set it resolves immediately with the unchanged
entity; otherwise it invokes the messaging collaborator `send`, sets
`recoverySentAt = now` in the delivery-completion callback, and saves.
`saveError` is the outcome of the external `save` call (`none` = success). -/
def sendRecovery (now : Int) (e : Entity) (hasDone : Bool)
    (saveError : Option JsError) : SendOut :=
  let isRecovered := e.recoveredAt.isSome
  if isRecovered then
    { outcome := .resolved (some e)
      doneCalls := if hasDone then [.ok e] else []
      sendCalled := false
      saved := none
      entity := e }
  else
    let e1 := { e with recoverySentAt := some now }
    match saveError with
    | some err =>
      { outcome := .rejected err
        doneCalls := if hasDone then [.fail err] else []
        sendCalled := true
        saved := none
        entity := e1 }
    | none =>
      { outcome := .resolved (some e1)
        doneCalls := if hasDone then [.ok e1] else []
        sendCalled := true
        saved := some e1
        entity := e1 }

/-- Result of `requestRecover`. -/
structure RequestOut where
  outcome : Outcome
  doneCalls : List DoneCall
  sendCalled : Bool
  saved : Option Entity
deriving DecidableEq

/-- Embedding of `schema.statics.requestRecover` (`recoverable.js` lines 174–212):
`findOne(criteria)`, throw `Error('Invalid recovery details')` when no entity
exists, then `generateRecoveryToken()`, then `sendRecovery()` (both called
without a callback), then `done(null, recoverable)` / resolve.  The final
`.catch` delivers any error to `done` when a callback was given (resolving the
promise with `undefined`) and rethrows otherwise. -/
def requestRecover (opts : RecoverableOptions) (now : Int) (rand : Nat)
    (store : List Entity) (criteria : Entity → Bool) (hasDone : Bool)
    (saveError : Option JsError) : RequestOut :=
  match store.find? criteria with
  | none =>
    let error := JsError.err "Invalid recovery details"
    if hasDone then
      { outcome := .resolved none
        doneCalls := [.fail error]
        sendCalled := false
        saved := none }
    else
      { outcome := .rejected error
        doneCalls := []
        sendCalled := false
        saved := none }
  | some e =>
    let g := generateRecoveryToken opts now rand e false
    let s := sendRecovery now g.entity false saveError
    match s.outcome with
    | .rejected err =>
      if hasDone then
        { outcome := .resolved none
          doneCalls := [.fail err]
          sendCalled := s.sendCalled
          saved := s.saved }
      else
        { outcome := .rejected err
          doneCalls := []
          sendCalled := s.sendCalled
          saved := s.saved }
    | .resolved _ =>
      { outcome := .resolved (some s.entity)
        doneCalls := if hasDone then [.ok s.entity] else []
        sendCalled := s.sendCalled
        saved := s.saved }

/-- Result of `recover`. -/
structure RecoverOut where
  outcome : Outcome
  doneCalls : List DoneCall
  saved : Option Entity
deriving DecidableEq

/-- The stage-1 lookup predicate of `recover`:
`findOne({ recoveryToken: { $regex: new RegExp(recoveryToken, 'i') } })` —
the raw input token is compiled as a case-insensitive pattern and tested
against the stored `recoveryToken` field (a `null` stored token never
matches). -/
def recoverLookup (recoveryToken : String) (e : Entity) : Bool :=
  match e.recoveryToken with
  | none => false
  | some t => regexTestI recoveryToken t

/-- Embedding of `schema.statics.recover` (`recoverable.js` lines 237–319), parametrized by
the tokenizer verification function `tokCheck seed token subject` so the
passcode-mode skip of the verification step is expressible.  The pipeline:

1. `findOne` by `recoverLookup`; on a miss, `done(Error('Invalid recovery
   token'))` when a callback was given — the chain is NOT aborted and
   continues holding `null`.
2. Expiry check `!Utils.isAfter(new Date(), expiry)`; on failure,
   `done(Error('Recovery token expired'))` — the chain is NOT aborted.  When
   the entity is `null`, reading `recoveryTokenExpiryAt` throws a `TypeError`
   that the final `.catch` delivers to `done` and rethrows.
3. `value = expiry.getTime().toString()` (a `TypeError` when the expiry is
   `null`); unless `tokenType === 'passcode'`, verify
   `tokenizer(value).match(rawToken, email)`; on mismatch,
   `done(Error('Invalid recovery token'))` — the chain is NOT aborted.
4. `password = newPassword; encryptPassword()`.
5. `recoveredAt = new Date(); save()`, then `done(null, recoverable)` and
   resolve with the entity.
The final `.catch` calls `done(error)` when a callback was given and always
rethrows. -/
def recoverWith (tokCheck : String → String → String → Bool)
    (tokenType : Option String) (now : Int) (store : List Entity)
    (recoveryToken newPassword : String) (hasDone : Bool) : RecoverOut :=
  match store.find? (recoverLookup recoveryToken) with
  | none =>
    let calls1 := if hasDone then [DoneCall.fail (.err "Invalid recovery token")] else []
    { outcome := .rejected .typeError
      doneCalls := calls1 ++ (if hasDone then [DoneCall.fail .typeError] else [])
      saved := none }
  | some e0 =>
    let isTokenExpired := ! Utils.isAfter now e0.recoveryTokenExpiryAt
    let calls2 := if isTokenExpired && hasDone then
      [DoneCall.fail (.err "Recovery token expired")] else []
    match e0.recoveryTokenExpiryAt with
    | none =>
      { outcome := .rejected .typeError
        doneCalls := calls2 ++ (if hasDone then [DoneCall.fail .typeError] else [])
        saved := none }
    | some expiry =>
      let value := toString expiry
      let mismatch := !(tokenType == some "passcode")
        && !(tokCheck value recoveryToken e0.email)
      let calls3 := if mismatch && hasDone then
        [DoneCall.fail (.err "Invalid recovery token")] else []
      let e1 := encryptPassword { e0 with password := newPassword }
      let e2 := { e1 with recoveredAt := some now }
      { outcome := .resolved (some e2)
        doneCalls := calls2 ++ calls3 ++ (if hasDone then [DoneCall.ok e2] else [])
        saved := some e2 }

/-- Embedding of `schema.statics.recover` with the concrete tokenizer of `lib/utils`. -/
def recover (tokenType : Option String) (now : Int) (store : List Entity)
    (recoveryToken newPassword : String) (hasDone : Bool) : RecoverOut :=
  recoverWith (fun seed token subject => (Utils.tokenizer seed).check token subject)
    tokenType now store recoveryToken newPassword hasDone

/-! ## Sample data used by concrete witnesses and counterexamples -/

/-- A stored entity holding the default-mode token for expiry `0` and email
`a@x.com`. -/
def entA : Entity :=
  { email := "a@x.com"
    password := "oldpassword"
    recoveryToken := some "0:a@x.com"
    recoveryTokenExpiryAt := some 0 }

/-- A stored entity whose recovery token is the two-letter string `ab`. -/
def entB : Entity :=
  { email := "b@x.com"
    password := "pw"
    recoveryToken := some "ab"
    recoveryTokenExpiryAt := some 0 }

/-! ## Helper lemmas -/

/-- When the filter of a list by `p` is the singleton `[e]`, `find?` returns
`e` (this is how "criteria matching exactly one stored entity" determines the
result of `findOne`). -/
theorem find?_of_filter_singleton {α : Type} (p : α → Bool) :
    ∀ (l : List α) (e : α), l.filter p = [e] → l.find? p = some e := by
  intro l
  induction l with
  | nil => intro e h; simp at h
  | cons a t ih =>
    intro e h
    cases hp : p a with
    | true =>
      rw [List.filter_cons_of_pos hp] at h
      injection h with h1 h2
      rw [List.find?_cons_of_pos _ hp, h1]
    | false =>
      rw [List.filter_cons_of_neg (by simp [hp])] at h
      rw [List.find?_cons_of_neg _ (by simp [hp])]
      exact ih e h

/-- Hashing never returns its input: the stored credential differs from the
plaintext password. -/
theorem hashPassword_ne (p : String) : hashPassword p ≠ p := by
  intro h
  have hlen := congrArg String.length h
  rw [hashPassword, String.length_append] at hlen
  have h7 : "hashed:".length = 7 := rfl
  rw [h7] at hlen
  omega

/-- Digits below ten render as digit characters. -/
theorem isDigit_digitChar (d : Nat) (h : d < 10) :
    (Nat.digitChar d).isDigit = true := by
  interval_cases d <;> decide

/-! ## Claim theorems -/

/-- C6: for every entity (including one whose `recoveredAt` is currently
set), `generateRecoveryToken` sets `recoveryToken`, sets
`recoveryTokenExpiryAt` to `now + tokenLifeSpan` days, clears `recoveredAt`
to `null`, does not call `save`, and always resolves with the mutated entity
(it never rejects, and the optional callback receives the mutated entity). -/
theorem generateRecoveryToken_spec (opts : RecoverableOptions) (now : Int)
    (rand : Nat) (e : Entity) (hasDone : Bool) :
    (generateRecoveryToken opts now rand e hasDone).entity.recoveryToken =
      some (getRecoveryToken (now + opts.tokenLifeSpan * 86400000) e.email
        opts.tokenType rand) ∧
    (generateRecoveryToken opts now rand e hasDone).entity.recoveryTokenExpiryAt =
      some (now + opts.tokenLifeSpan * 86400000) ∧
    (generateRecoveryToken opts now rand e hasDone).entity.recoveredAt = none ∧
    (generateRecoveryToken opts now rand e hasDone).saved = none ∧
    (generateRecoveryToken opts now rand e hasDone).outcome =
      .resolved (some (generateRecoveryToken opts now rand e hasDone).entity) ∧
    (generateRecoveryToken opts now rand e hasDone).doneCalls =
      (if hasDone then [.ok (generateRecoveryToken opts now rand e hasDone).entity]
       else []) := by
  refine ⟨rfl, rfl, rfl, rfl, rfl, rfl⟩

/-- C7: for every entity whose `recoveredAt` is already non-null,
`sendRecovery` resolves immediately with the entity, the messaging
collaborator `send` is not invoked, no `save` occurs, and the entity keeps
all its prior field values, whatever the callback mode and whatever the
external save outcome would have been. -/
theorem sendRecovery_recovered_noop (now : Int) (e : Entity) (hasDone : Bool)
    (saveError : Option JsError) (h : e.recoveredAt.isSome) :
    sendRecovery now e hasDone saveError =
      { outcome := .resolved (some e)
        doneCalls := if hasDone then [.ok e] else []
        sendCalled := false
        saved := none
        entity := e } := by
  rw [sendRecovery]
  simp only [h]
  rfl

/-- C7 witness: a concrete entity with `recoveredAt` set is returned
untouched, with `send` not called and nothing saved. -/
theorem sendRecovery_recovered_noop_witness :
    ({ entA with recoveredAt := some 5 } : Entity).recoveredAt.isSome = true ∧
    sendRecovery 7 { entA with recoveredAt := some 5 } true (some .typeError) =
      { outcome := .resolved (some { entA with recoveredAt := some 5 })
        doneCalls := [.ok { entA with recoveredAt := some 5 }]
        sendCalled := false
        saved := none
        entity := { entA with recoveredAt := some 5 } } :=
  ⟨by decide,
   sendRecovery_recovered_noop 7 { entA with recoveredAt := some 5 } true
     (some .typeError) (by decide)⟩

/-- C5: for every criteria matching zero stored entities, `requestRecover`
fails with the `NotFound` error carrying the message
`Invalid recovery details`: without a callback the promise rejects with it,
and with a callback the callback receives it as the error argument. -/
theorem requestRecover_notFound (opts : RecoverableOptions) (now : Int)
    (rand : Nat) (store : List Entity) (criteria : Entity → Bool)
    (saveError : Option JsError) (h : store.find? criteria = none) :
    (requestRecover opts now rand store criteria false saveError).outcome =
      .rejected (.err "Invalid recovery details") ∧
    (requestRecover opts now rand store criteria true saveError).doneCalls =
      [.fail (.err "Invalid recovery details")] := by
  rw [requestRecover, requestRecover, h]
  exact ⟨rfl, rfl⟩

/-- C5 witness: on an empty store, `requestRecover` rejects with the
`Invalid recovery details` error (promise mode) and delivers the same error
to the callback (callback mode). -/
theorem requestRecover_notFound_witness :
    ([] : List Entity).find? (fun e => e.email == "a@x.com") = none ∧
    (requestRecover ⟨1, none⟩ 0 0 [] (fun e => e.email == "a@x.com")
        false none).outcome = .rejected (.err "Invalid recovery details") ∧
    (requestRecover ⟨1, none⟩ 0 0 [] (fun e => e.email == "a@x.com")
        true none).doneCalls = [.fail (.err "Invalid recovery details")] :=
  ⟨rfl,
   requestRecover_notFound ⟨1, none⟩ 0 0 [] (fun e => e.email == "a@x.com")
     none rfl⟩

/-- C10: for every failure in `requestRecover`, when a completion callback is
supplied the callback receives the error as its first argument and the
returned promise resolves with `undefined` rather than rejecting (the
callback-mode promise never rejects); only the callback-free run rejects with
the error. -/
theorem requestRecover_error_delivery (opts : RecoverableOptions) (now : Int)
    (rand : Nat) (store : List Entity) (criteria : Entity → Bool)
    (saveError : Option JsError) :
    (∀ err : JsError,
      (requestRecover opts now rand store criteria false saveError).outcome =
        .rejected err →
      (requestRecover opts now rand store criteria true saveError).doneCalls =
        [.fail err] ∧
      (requestRecover opts now rand store criteria true saveError).outcome =
        .resolved none) ∧
    (∀ err : JsError,
      (requestRecover opts now rand store criteria true saveError).outcome ≠
        .rejected err) := by
  refine ⟨?_, ?_⟩
  · intro err h
    cases hf : store.find? criteria with
    | none =>
      simp [requestRecover, hf] at h
      subst h
      simp [requestRecover, hf]
    | some e =>
      cases hs : saveError with
      | none =>
        rw [hs] at h
        simp [requestRecover, hf, generateRecoveryToken, sendRecovery] at h
      | some serr =>
        rw [hs] at h
        simp [requestRecover, hf, generateRecoveryToken, sendRecovery] at h
        subst h
        simp [requestRecover, hf, generateRecoveryToken, sendRecovery]
  · intro err
    cases hf : store.find? criteria with
    | none => simp [requestRecover, hf]
    | some e =>
      cases saveError <;>
        simp [requestRecover, hf, generateRecoveryToken, sendRecovery]

/-- C10 witness: on an empty store (a concrete failure), the callback-mode
run delivers the error to the callback, resolves with `undefined`, and does
not reject. -/
theorem requestRecover_error_delivery_witness :
    (requestRecover ⟨1, none⟩ 0 0 [] (fun e => e.email == "x") true
        none).doneCalls = [.fail (.err "Invalid recovery details")] ∧
    (requestRecover ⟨1, none⟩ 0 0 [] (fun e => e.email == "x") true
        none).outcome = .resolved none ∧
    (requestRecover ⟨1, none⟩ 0 0 [] (fun e => e.email == "x") true
        none).outcome ≠ .rejected .typeError :=
  ⟨((requestRecover_error_delivery ⟨1, none⟩ 0 0 [] (fun e => e.email == "x")
       none).1 (.err "Invalid recovery details") (by decide)).1,
   ((requestRecover_error_delivery ⟨1, none⟩ 0 0 [] (fun e => e.email == "x")
       none).1 (.err "Invalid recovery details") (by decide)).2,
   (requestRecover_error_delivery ⟨1, none⟩ 0 0 [] (fun e => e.email == "x")
       none).2 .typeError⟩

/-- C4: for every criteria matching exactly one stored entity (and a positive
configured token lifespan, with the external save succeeding),
`requestRecover` resolves with an entity whose `recoveryToken` is non-null,
whose `recoveryTokenExpiryAt` is `now + tokenLifeSpan` days — in the future —
and whose `recoveredAt` is null. -/
theorem requestRecover_success (opts : RecoverableOptions) (now : Int)
    (rand : Nat) (store : List Entity) (criteria : Entity → Bool) (e : Entity)
    (hasDone : Bool) (h1 : store.filter criteria = [e])
    (h2 : 0 < opts.tokenLifeSpan) :
    ∃ e2 : Entity,
      (requestRecover opts now rand store criteria hasDone none).outcome =
        .resolved (some e2) ∧
      e2.recoveryToken.isSome = true ∧
      e2.recoveryTokenExpiryAt = some (now + opts.tokenLifeSpan * 86400000) ∧
      now < now + opts.tokenLifeSpan * 86400000 ∧
      e2.recoveredAt = none := by
  have hf := find?_of_filter_singleton criteria store e h1
  refine ⟨{ e with
      recoveryToken := some (getRecoveryToken (now + opts.tokenLifeSpan * 86400000)
        e.email opts.tokenType rand)
      recoveryTokenExpiryAt := some (now + opts.tokenLifeSpan * 86400000)
      recoverySentAt := some now
      recoveredAt := none }, ?_, rfl, rfl, by omega, rfl⟩
  rw [requestRecover, hf]
  cases hasDone <;> rfl

/-- C4 witness: a store holding exactly one entity matching the criteria, a
one-day lifespan: `requestRecover` resolves with a token set, expiry one day
ahead, and `recoveredAt` null. -/
theorem requestRecover_success_witness :
    [entA].filter (fun e => e.email == "a@x.com") = [entA] ∧
    (0 : Int) < 1 ∧
    ∃ e2 : Entity,
      (requestRecover ⟨1, none⟩ 0 0 [entA] (fun e => e.email == "a@x.com")
          false none).outcome = .resolved (some e2) ∧
      e2.recoveryToken.isSome = true ∧
      e2.recoveryTokenExpiryAt = some (0 + 1 * 86400000) ∧
      (0 : Int) < 0 + 1 * 86400000 ∧
      e2.recoveredAt = none :=
  ⟨by decide, by decide,
   requestRecover_success ⟨1, none⟩ 0 0 [entA]
     (fun e => e.email == "a@x.com") entA false (by decide) (by decide)⟩

/-- Evaluation of the `recover` pipeline once stage 1 found an entity whose
expiry field is set: stages 2 and 3 contribute only callback invocations,
and the pipeline always reaches password replacement, the `recoveredAt`
update and `save`, resolving with the mutated entity. -/
theorem recoverWith_found (tokCheck : String → String → String → Bool)
    (tokenType : Option String) (now : Int) (store : List Entity)
    (tok pw : String) (hasDone : Bool) (e : Entity) (x : Int)
    (h1 : store.find? (recoverLookup tok) = some e)
    (h2 : e.recoveryTokenExpiryAt = some x) :
    recoverWith tokCheck tokenType now store tok pw hasDone =
      { outcome := .resolved (some { e with
          password := hashPassword pw
          recoveredAt := some now })
        doneCalls :=
          (if (!Utils.isAfter now (some x)) && hasDone then
            [.fail (.err "Recovery token expired")] else [])
          ++ (if (!(tokenType == some "passcode")
                && !(tokCheck (toString x) tok e.email)) && hasDone then
            [.fail (.err "Invalid recovery token")] else [])
          ++ (if hasDone then
            [.ok { e with password := hashPassword pw, recoveredAt := some now }]
            else [])
        saved := some { e with
          password := hashPassword pw
          recoveredAt := some now } } := by
  rw [recoverWith, h1]
  simp only [h2]
  rfl

/-- C3: for every entity holding a correct, unexpired, default-mode token,
`recover` with that token and a new password sets `recoveredAt` to a non-null
timestamp (`now`), replaces the password with its hashed form via the
`encryptPassword` collaborator (not stored as plaintext), persists the entity
via `save`, and resolves with the entity; the callback, when given, receives
no error — only the final entity. -/
theorem recover_success_default (now : Int) (store : List Entity)
    (tok pw : String) (hasDone : Bool) (e : Entity) (x : Int)
    (h1 : store.find? (recoverLookup tok) = some e)
    (h2 : e.recoveryTokenExpiryAt = some x)
    (h3 : now ≤ x)
    (h4 : tok = (Utils.tokenizer (toString x)).encrypt e.email) :
    (recover none now store tok pw hasDone).outcome =
      .resolved (some { e with password := hashPassword pw, recoveredAt := some now }) ∧
    (recover none now store tok pw hasDone).saved =
      some { e with password := hashPassword pw, recoveredAt := some now } ∧
    hashPassword pw ≠ pw ∧
    (recover none now store tok pw hasDone).doneCalls =
      (if hasDone then
        [.ok { e with password := hashPassword pw, recoveredAt := some now }]
       else []) := by
  rw [recover, recoverWith_found _ _ _ _ _ _ _ _ _ h1 h2]
  refine ⟨rfl, rfl, hashPassword_ne pw, ?_⟩
  have hexp : Utils.isAfter now (some x) = true := by
    simp [Utils.isAfter, h3]
  have hchk : (Utils.tokenizer (toString x)).check tok e.email = true := by
    simp [Utils.Tokenizer.check, h4]
  simp [hexp, hchk]

/-- C3 witness: the concrete entity `entA` holds the default-mode token for
expiry `0`; at `now = 0` (unexpired) `recover` hashes and stores the new
password, stamps `recoveredAt`, saves and resolves. -/
theorem recover_success_default_witness :
    [entA].find? (recoverLookup "0:a@x.com") = some entA ∧
    entA.recoveryTokenExpiryAt = some 0 ∧
    (0 : Int) ≤ 0 ∧
    "0:a@x.com" = (Utils.tokenizer (toString (0 : Int))).encrypt entA.email ∧
    ((recover none 0 [entA] "0:a@x.com" "NewPass1" true).outcome =
      .resolved (some { entA with
        password := hashPassword "NewPass1"
        recoveredAt := some 0 }) ∧
    (recover none 0 [entA] "0:a@x.com" "NewPass1" true).saved =
      some { entA with password := hashPassword "NewPass1", recoveredAt := some 0 } ∧
    hashPassword "NewPass1" ≠ "NewPass1" ∧
    (recover none 0 [entA] "0:a@x.com" "NewPass1" true).doneCalls =
      (if true then
        [.ok { entA with password := hashPassword "NewPass1", recoveredAt := some 0 }]
       else [])) :=
  ⟨by decide, by decide, by decide, by decide,
   recover_success_default 0 [entA] "0:a@x.com" "NewPass1" true entA 0
     (by decide) (by decide) (by decide) (by decide)⟩

/-- C1: the code violates the claim.  For the concrete stored entity `entA`
whose `recoveryTokenExpiryAt` (`0`) lies in the past of `now = 10`, calling
`recover` with that entity's token does deliver the
`Recovery token expired` error to the callback, but the pipeline is not
halted: the password is replaced by the hash of the new password, the entity
is saved, and the promise resolves — the password does not stay unchanged. -/
theorem recover_expired_updates_password :
    (recover none 10 [entA] "0:a@x.com" "NewPass1" true).doneCalls.head? =
      some (.fail (.err "Recovery token expired")) ∧
    (recover none 10 [entA] "0:a@x.com" "NewPass1" true).saved =
      some { entA with password := hashPassword "NewPass1", recoveredAt := some 10 } ∧
    (recover none 10 [entA] "0:a@x.com" "NewPass1" true).outcome =
      .resolved (some { entA with
        password := hashPassword "NewPass1"
        recoveredAt := some 10 }) ∧
    hashPassword "NewPass1" ≠ entA.password := by
  exact ⟨by decide, by decide, by decide, by decide⟩

/-- C2 counterexample: for a stage-1 error (lookup miss — concrete input:
token `zzz` against the store `[entA]`), the callback does receive the
`Invalid recovery token` error, but the subsequent stages do NOT execute:
nothing is saved (no password replacement, no `recoveredAt` update) because
the chain rejects with a `TypeError` as soon as stage 2 reads a field of the
null entity — contradicting the claim that every stage 1–3 error falls
through to the password/save stages. -/
theorem recover_stage1_error_aborts :
    ([entA].find? (recoverLookup "zzz")).isNone = true ∧
    (recover none 0 [entA] "zzz" "NewPass1" true).doneCalls =
      [.fail (.err "Invalid recovery token"), .fail .typeError] ∧
    (recover none 0 [entA] "zzz" "NewPass1" true).saved = none ∧
    (recover none 0 [entA] "zzz" "NewPass1" true).outcome =
      .rejected .typeError := by
  exact ⟨by decide, by decide, by decide, by decide⟩

/-- C2 amended: errors detected in stage 2 (expiry) or stage 3 (tokenizer
mismatch) invoke the optional completion callback with that error and the
promise chain is not aborted — password replacement, the `recoveredAt` update
and `save` still execute on the stale entity; for a stage-1 lookup miss the
callback is invoked with the `Invalid recovery token` error, but the chain
then rejects with a `TypeError` raised when stage 2 reads a field of the null
entity, so the password/save stages do not execute. -/
theorem recover_error_fallthrough :
    (∀ (tokenType : Option String) (now : Int) (store : List Entity)
        (tok pw : String),
      store.find? (recoverLookup tok) = none →
      (recover tokenType now store tok pw true).doneCalls =
        [.fail (.err "Invalid recovery token"), .fail .typeError] ∧
      (recover tokenType now store tok pw true).saved = none ∧
      (recover tokenType now store tok pw true).outcome =
        .rejected .typeError) ∧
    (∀ (tokenType : Option String) (now : Int) (store : List Entity)
        (tok pw : String) (e : Entity) (x : Int),
      store.find? (recoverLookup tok) = some e →
      e.recoveryTokenExpiryAt = some x →
      ¬ now ≤ x →
      (recover tokenType now store tok pw true).doneCalls.head? =
        some (.fail (.err "Recovery token expired")) ∧
      (recover tokenType now store tok pw true).saved =
        some { e with password := hashPassword pw, recoveredAt := some now } ∧
      (recover tokenType now store tok pw true).outcome =
        .resolved (some { e with
          password := hashPassword pw
          recoveredAt := some now })) ∧
    (∀ (now : Int) (store : List Entity) (tok pw : String) (e : Entity)
        (x : Int),
      store.find? (recoverLookup tok) = some e →
      e.recoveryTokenExpiryAt = some x →
      now ≤ x →
      (Utils.tokenizer (toString x)).check tok e.email = false →
      (recover none now store tok pw true).doneCalls =
        [.fail (.err "Invalid recovery token"),
         .ok { e with password := hashPassword pw, recoveredAt := some now }] ∧
      (recover none now store tok pw true).saved =
        some { e with password := hashPassword pw, recoveredAt := some now }) := by
  refine ⟨?_, ?_, ?_⟩
  · intro tokenType now store tok pw h
    rw [recover, recoverWith, h]
    exact ⟨rfl, rfl, rfl⟩
  · intro tokenType now store tok pw e x h1 h2 h3
    rw [recover, recoverWith_found _ _ _ _ _ _ _ _ _ h1 h2]
    have hexp : Utils.isAfter now (some x) = false := by
      simp [Utils.isAfter, h3]
    refine ⟨?_, rfl, rfl⟩
    simp [hexp]
  · intro now store tok pw e x h1 h2 h3 h4
    rw [recover, recoverWith_found _ _ _ _ _ _ _ _ _ h1 h2]
    have hexp : Utils.isAfter now (some x) = true := by
      simp [Utils.isAfter, h3]
    refine ⟨?_, rfl⟩
    simp [hexp, h4]

/-- C2 amended witness: concrete runs of all three cases — a lookup miss
(token `zzz`), an expired token (`now = 10`, expiry `0`), and a tokenizer
mismatch (token `a@x.com`, which matches the stored value as a substring but
fails verification). -/
theorem recover_error_fallthrough_witness :
    ((([entA].find? (recoverLookup "zzz")) = none ∧
      (recover none 7 [entA] "zzz" "p" true).saved = none) ∧
     ([entA].find? (recoverLookup "0:a@x.com") = some entA ∧
      ¬ (10 : Int) ≤ 0 ∧
      (recover none 10 [entA] "0:a@x.com" "p" true).saved =
        some { entA with password := hashPassword "p", recoveredAt := some 10 }) ∧
     ([entA].find? (recoverLookup "a@x.com") = some entA ∧
      (0 : Int) ≤ 0 ∧
      (Utils.tokenizer (toString (0 : Int))).check "a@x.com" entA.email = false ∧
      (recover none 0 [entA] "a@x.com" "p" true).doneCalls =
        [.fail (.err "Invalid recovery token"),
         .ok { entA with password := hashPassword "p", recoveredAt := some 0 }])) :=
  ⟨⟨by decide,
    (recover_error_fallthrough.1 none 7 [entA] "zzz" "p" (by decide)).2.1⟩,
   ⟨by decide, by decide,
    (recover_error_fallthrough.2.1 none 10 [entA] "0:a@x.com" "p" entA 0
      (by decide) (by decide) (by decide)).2.1⟩,
   ⟨by decide, by decide, by decide,
    (recover_error_fallthrough.2.2 0 [entA] "a@x.com" "p" entA 0
      (by decide) (by decide) (by decide) (by decide)).1⟩⟩

/-- C8: in passcode mode (`tokenType = "passcode"`), `generateRecoveryToken`'s
token is the random 6-character numeric string — the same whatever the expiry
and the email (not derived from them), 6 characters long and all digits —
and `recover` skips the tokenizer verification step entirely: its result does
not depend on the verification function at all, so a stage-1 lookup match
with an unexpired token suffices to succeed. -/
theorem passcode_mode_spec :
    (∀ (exp1 exp2 : Int) (em1 em2 : String) (rand : Nat),
      getRecoveryToken exp1 em1 (some "passcode") rand =
        getRecoveryToken exp2 em2 (some "passcode") rand) ∧
    (∀ (exp : Int) (em : String) (rand : Nat),
      (getRecoveryToken exp em (some "passcode") rand).length = 6 ∧
      ∀ c ∈ (getRecoveryToken exp em (some "passcode") rand).data,
        c.isDigit = true) ∧
    (∀ (check1 check2 : String → String → String → Bool) (now : Int)
        (store : List Entity) (tok pw : String) (hasDone : Bool),
      recoverWith check1 (some "passcode") now store tok pw hasDone =
        recoverWith check2 (some "passcode") now store tok pw hasDone) ∧
    (∀ (now : Int) (store : List Entity) (tok pw : String) (hasDone : Bool)
        (e : Entity) (x : Int),
      store.find? (recoverLookup tok) = some e →
      e.recoveryTokenExpiryAt = some x →
      now ≤ x →
      (recover (some "passcode") now store tok pw hasDone).outcome =
        .resolved (some { e with
          password := hashPassword pw
          recoveredAt := some now }) ∧
      (recover (some "passcode") now store tok pw hasDone).doneCalls =
        (if hasDone then
          [.ok { e with password := hashPassword pw, recoveredAt := some now }]
         else [])) := by
  refine ⟨fun _ _ _ _ _ => rfl, ?_, ?_, ?_⟩
  · intro exp em rand
    constructor
    · rfl
    · intro c hc
      have hc2 : c ∈ (List.range 6).map
          (fun i => Nat.digitChar (rand / 10 ^ i % 10)) := hc
      rw [List.mem_map] at hc2
      obtain ⟨i, _, rfl⟩ := hc2
      exact isDigit_digitChar _ (Nat.mod_lt _ (by norm_num))
  · intro check1 check2 now store tok pw hasDone
    cases hf : store.find? (recoverLookup tok) with
    | none => rw [recoverWith, recoverWith, hf]
    | some e =>
      cases hx : e.recoveryTokenExpiryAt with
      | none =>
        rw [recoverWith, recoverWith, hf]
        simp only [hx]
      | some x =>
        rw [recoverWith_found _ _ _ _ _ _ _ _ _ hf hx,
          recoverWith_found _ _ _ _ _ _ _ _ _ hf hx]
        exact rfl
  · intro now store tok pw hasDone e x h1 h2 h3
    rw [recover, recoverWith_found _ _ _ _ _ _ _ _ _ h1 h2]
    have hexp : Utils.isAfter now (some x) = true := by
      simp [Utils.isAfter, h3]
    exact ⟨rfl, by simp [hexp]⟩

/-- C8 witness: a concrete passcode-mode run — the passcode for seed 123456
is the same for two different expiry/email pairs, is 6 digits, and `recover`
succeeds on a stored 6-digit match with an unexpired token without consulting
any verification function. -/
theorem passcode_mode_spec_witness :
    (getRecoveryToken 0 "a@x.com" (some "passcode") 123456 =
      getRecoveryToken 99 "b@y.org" (some "passcode") 123456) ∧
    (getRecoveryToken 0 "a@x.com" (some "passcode") 123456).length = 6 ∧
    (recoverWith (fun _ _ _ => false) (some "passcode") 0
        [{ entA with recoveryToken := some "654321" }] "654321" "p" true =
      recoverWith (fun _ _ _ => true) (some "passcode") 0
        [{ entA with recoveryToken := some "654321" }] "654321" "p" true) ∧
    ([{ entA with recoveryToken := some "654321" }].find?
        (recoverLookup "654321") =
      some { entA with recoveryToken := some "654321" } ∧
     (0 : Int) ≤ 0 ∧
     (recover (some "passcode") 0 [{ entA with recoveryToken := some "654321" }]
        "654321" "p" true).outcome =
      .resolved (some { entA with
        recoveryToken := some "654321"
        password := hashPassword "p"
        recoveredAt := some 0 })) :=
  ⟨passcode_mode_spec.1 0 99 "a@x.com" "b@y.org" 123456,
   (passcode_mode_spec.2.1 0 "a@x.com" 123456).1,
   passcode_mode_spec.2.2.1 (fun _ _ _ => false) (fun _ _ _ => true) 0
     [{ entA with recoveryToken := some "654321" }] "654321" "p" true,
   ⟨by decide, by decide,
    (passcode_mode_spec.2.2.2 0 [{ entA with recoveryToken := some "654321" }]
      "654321" "p" true { entA with recoveryToken := some "654321" } 0
      (by decide) (by decide) (by decide)).1⟩⟩

/-- Formalisation of the claim's own wording for the stage-1 lookup, for
comparison with `recoverLookup` (which embeds the code): per the claim, "the
stored token is matched as a case-insensitive regular-expression pattern
against the query", i.e. the STORED `recoveryToken` would be the pattern and
the raw input token the subject. -/
def recoverLookupSpecDir (recoveryToken : String) (e : Entity) : Bool :=
  match e.recoveryToken with
  | none => false
  | some t => regexTestI t recoveryToken

/-- C9 counterexample: with the stored token `ab` (entity `entB`) and the raw
input `a.`, the code's stage-1 lookup finds the entity — the raw INPUT is
compiled as the pattern, and `a.` matches `ab` case-insensitively — and the
pipeline proceeds past stage 1 (it resolves rather than rejecting with the
stage-1 `TypeError`); the claim's pattern direction (stored token as the
pattern, input as the subject) finds nothing on the same input, so the claim,
as stated, is false at this input. -/
theorem recover_lookup_direction_counterexample :
    recoverLookup "a." entB = true ∧
    recoverLookupSpecDir "a." entB = false ∧
    [entB].find? (recoverLookupSpecDir "a.") = none ∧
    (recover none 0 [entB] "a." "p" true).outcome =
      .resolved (some { entB with
        password := hashPassword "p"
        recoveredAt := some 0 }) := by
  exact ⟨by decide, by decide, by decide, by decide⟩

/-- C9 amended: stage 1 of `recover` locates the entity by case-insensitive
regular-expression pattern matching between the raw input token and the
stored `recoveryToken` field, the raw INPUT token being compiled as the
case-insensitive pattern and tested (unanchored) against the stored token —
not the other way around; a `null` stored token never matches; and when no
entity is found, the `Invalid recovery token` (`InvalidToken`) error is
delivered to the optional callback (after which the chain rejects with a
`TypeError` rather than with that error). -/
theorem recover_stage1_lookup :
    (∀ (tok : String) (e : Entity) (t : String),
      e.recoveryToken = some t → recoverLookup tok e = regexTestI tok t) ∧
    (∀ (tok : String) (e : Entity),
      e.recoveryToken = none → recoverLookup tok e = false) ∧
    (∀ (tokenType : Option String) (now : Int) (store : List Entity)
        (tok pw : String),
      store.find? (recoverLookup tok) = none →
      (recover tokenType now store tok pw true).doneCalls.head? =
        some (.fail (.err "Invalid recovery token")) ∧
      (recover tokenType now store tok pw true).outcome =
        .rejected .typeError) := by
  refine ⟨?_, ?_, ?_⟩
  · intro tok e t h
    rw [recoverLookup, h]
  · intro tok e h
    rw [recoverLookup, h]
  · intro tokenType now store tok pw h
    rw [recover, recoverWith, h]
    exact ⟨rfl, rfl⟩

/-- C9 amended witness: the uppercase raw input `0:A@X.COM` is matched, as
the pattern, against `entA`'s stored token (case-insensitively); and on a
store where nothing matches the input `zzz`, the callback's first invocation
carries the `Invalid recovery token` error. -/
theorem recover_stage1_lookup_witness :
    (entA.recoveryToken = some "0:a@x.com" ∧
     recoverLookup "0:A@X.COM" entA = regexTestI "0:A@X.COM" "0:a@x.com" ∧
     regexTestI "0:A@X.COM" "0:a@x.com" = true) ∧
    (({ entA with recoveryToken := none } : Entity).recoveryToken = none ∧
     recoverLookup "0:a@x.com" { entA with recoveryToken := none } = false) ∧
    ([entA].find? (recoverLookup "zzz") = none ∧
     (recover none 3 [entA] "zzz" "p" true).doneCalls.head? =
       some (.fail (.err "Invalid recovery token"))) :=
  ⟨⟨by decide,
    recover_stage1_lookup.1 "0:A@X.COM" entA "0:a@x.com" (by decide),
    by decide⟩,
   ⟨by decide,
    recover_stage1_lookup.2.1 "0:a@x.com" { entA with recoveryToken := none }
      (by decide)⟩,
   ⟨by decide,
    (recover_stage1_lookup.2.2 none 3 [entA] "zzz" "p" (by decide)).1⟩⟩

end Recoverable
